import Mathlib

/-!
Verification development for the fuel-management server of this repository.

The definitions below are a shallow embedding of the storage layer
(`src/server/storage.ts`, class `DatabaseStorage`) and of the relevant
Express route handlers (`src/server/routes.ts`).  The database is modelled
as explicit lists of rows; each storage method becomes a pure function from
the database state to a new state plus its return value; SQL `numeric`
values are modelled as rationals (`Rat`), SQL `timestamp` values as natural
numbers, and JavaScript `undefined` as `Option.none`.  Randomness
(`Math.random()`) is modelled by passing in the stream of strings produced
by `Math.random().toString(36)`; a database call that may reject is
modelled by an explicit failure parameter where a claim depends on it.
-/

namespace Counc

/-- Split a character list at the first `'.'`: the part before it, and the
part after it when a dot occurs. -/
def splitDot : List Char → List Char × Option (List Char)
  | [] => ([], none)
  | ch :: cs =>
    if ch = '.' then ([], some cs)
    else
      let p := splitDot cs
      (ch :: p.1, p.2)

/-- Read a nonempty all-digit character list as a natural number. -/
def digitsToNat? (cs : List Char) : Option Nat :=
  if cs.isEmpty then none
  else if cs.all Char.isDigit then
    some (cs.foldl (fun n ch => 10 * n + (ch.toNat - 48)) 0)
  else none

/-- Parse a plain decimal literal (digits, optionally a dot and more digits)
into a rational, the grammar reachable from the coupon `amount` payloads.
Returns `none` on anything else. -/
def parseDec (s : String) : Option Rat :=
  let p := splitDot s.toList
  match p.2 with
  | none => (digitsToNat? p.1).map (fun n => (n : Rat))
  | some f =>
    match digitsToNat? p.1, digitsToNat? f with
    | some n, some m => some ((n : Rat) + (m : Rat) / (10 : Rat) ^ f.length)
    | _, _ => none

/-- Embedding of JavaScript `parseFloat` on the decimal strings the server
actually receives (coupon amounts); non-numeric input is not reachable in
the claims considered here. -/
def parseFloatJS (s : String) : Rat :=
  (parseDec s).getD 0

/-- Left-pad a string with zeros to width `k`. -/
def padZeros (s : String) (k : Nat) : String :=
  String.mk (List.replicate (k - s.length) '0') ++ s

/-- Smallest positive `k` with `den ∣ 10^k`, if one exists below the bound
(it does for every denominator of the form `2^a * 5^b`). -/
def decExp (den : Nat) : Option Nat :=
  (List.range den).find? (fun k => 10 ^ (k + 1) % den == 0) |>.map (· + 1)

/-- Embedding of JavaScript number-to-string conversion (template literal
interpolation) restricted to the nonnegative decimal rationals produced by
`parseFloat` on the server's inputs: integers print without a fractional
part, other decimal values print with their shortest fractional expansion. -/
def ratToJsString (q : Rat) : String :=
  if q.den = 1 then toString q.num
  else
    match decExp q.den with
    | some k =>
      let scaled : Int := q.num * ((10 : Int) ^ k / (q.den : Int))
      let ip : Int := scaled / (10 : Int) ^ k
      let fp : Nat := (scaled % (10 : Int) ^ k).toNat
      toString ip ++ "." ++ padZeros (toString fp) k
    | none => toString q.num ++ "/" ++ toString q.den

/-- JSON values, as produced by `res.json(...)` in the route handlers. -/
inductive Json where
  | null : Json
  | str : String → Json
  | num : Rat → Json
  | bool : Bool → Json
  | arr : List Json → Json
  | obj : List (String × Json) → Json

/-- Whether a JSON value is an object. -/
def isObjJson : Json → Bool
  | Json.obj _ => true
  | _ => false

/-- An HTTP response: status code and JSON body. `res.json(undefined)`
(reached when a storage method returns no row) sends an empty body,
modelled as `none`. -/
structure HttpResponse where
  status : Nat
  body : Option Json

/-- A row of the `fuel_balances` table: one balance per (user, fuel type);
the `numeric` balance column is modelled as a rational. -/
structure FuelBalanceRow where
  userId : String
  fuelType : String
  balance : Rat
deriving DecidableEq

/-- A row of the `coupons` table. -/
structure Coupon where
  code : String
  fuelType : String
  amount : String
  status : String
  usedBy : Option String
  usedAt : Option Nat
  expiryDate : Option Int
deriving DecidableEq

/-- A row of the `vehicles` table (the columns the approval workflow touches). -/
structure Vehicle where
  id : String
  ownerId : String
  status : String
  approvedBy : Option String
  approvedAt : Option Nat
  rejectionReason : Option String
deriving DecidableEq

/-- A row of the `transactions` table (the columns `updateTransactionStatus` touches). -/
structure Txn where
  id : String
  status : String
  completedAt : Option Nat
deriving DecidableEq

/-- The database state: the tables the verified operations read and write. -/
structure DB where
  fuelBalances : List FuelBalanceRow
  coupons : List Coupon
  vehicles : List Vehicle
  transactions : List Txn
deriving DecidableEq

/-- Embedding of `DatabaseStorage.getFuelBalance`: `SELECT` the row with the
given user id and fuel type. -/
def getFuelBalance (db : DB) (userId fuelType : String) : Option FuelBalanceRow :=
  db.fuelBalances.find? (fun r => r.userId == userId && r.fuelType == fuelType)

/-- Embedding of the `INSERT ... ON CONFLICT (userId, fuelType) DO UPDATE SET
balance = balance + amount ... RETURNING` statement of
`DatabaseStorage.updateFuelBalance`, on the row list.  The table has a
unique index on (userId, fuelType), so at most one row can conflict; on
conflict that row is incremented in place, otherwise a fresh row holding
`amount` is inserted.  Also returns the affected row (`RETURNING`). -/
def upsertBalance (rows : List FuelBalanceRow) (u k : String) (a : Rat) :
    List FuelBalanceRow × FuelBalanceRow :=
  match rows with
  | [] => ([⟨u, k, a⟩], ⟨u, k, a⟩)
  | r :: rs =>
    if r.userId == u && r.fuelType == k then
      ({ r with balance := r.balance + a } :: rs, { r with balance := r.balance + a })
    else
      let p := upsertBalance rs u k a
      (r :: p.1, p.2)

/-- Embedding of `DatabaseStorage.updateFuelBalance` on the database state. -/
def updateFuelBalance (db : DB) (u k : String) (a : Rat) : DB × FuelBalanceRow :=
  let p := upsertBalance db.fuelBalances u k a
  ({ db with fuelBalances := p.1 }, p.2)

/-- One `INSERT ... ON CONFLICT DO NOTHING` step of
`DatabaseStorage.initializeFuelBalances`: insert a zero balance unless a row
for this (user, fuel type) already exists. -/
def insertBalanceIfAbsent (rows : List FuelBalanceRow) (u k : String) :
    List FuelBalanceRow :=
  if (rows.find? (fun r => r.userId == u && r.fuelType == k)).isSome then rows
  else rows ++ [⟨u, k, 0⟩]

/-- Embedding of `DatabaseStorage.initializeFuelBalances`: insert zero rows
for 'petrol' and 'diesel' with `ON CONFLICT DO NOTHING`. -/
def initFuelBalances (db : DB) (u : String) : DB :=
  { db with fuelBalances :=
      insertBalanceIfAbsent (insertBalanceIfAbsent db.fuelBalances u "petrol") u "diesel" }

/-- The numeric value of a user's stored balance, `0` when no row exists
(used only to state theorems). -/
def balanceVal (db : DB) (u k : String) : Rat :=
  ((getFuelBalance db u k).map FuelBalanceRow.balance).getD 0

/-- Embedding of `DatabaseStorage.getCouponByCode`: `SELECT` by code,
regardless of status. -/
def getCouponByCode (db : DB) (code : String) : Option Coupon :=
  db.coupons.find? (fun c => c.code == code)

/-- Embedding of `DatabaseStorage.redeemCoupon`: a conditional
`UPDATE coupons SET status = 'used', usedAt = now, usedBy = userId
WHERE code = code AND status = 'active' RETURNING`; when no row was
updated the method throws `Error('Coupon not found or already used')`.
`now` stands for `new Date()`. -/
def redeemCoupon (db : DB) (now : Nat) (code userId : String) :
    Except String (DB × Coupon) :=
  match db.coupons.find? (fun c => c.code == code && c.status == "active") with
  | some c =>
    Except.ok
      ({ db with coupons :=
          db.coupons.map (fun x =>
            if x.code == code && x.status == "active" then
              { x with status := "used", usedAt := some now, usedBy := some userId }
            else x) },
        { c with status := "used", usedAt := some now, usedBy := some userId })
  | none => Except.error "Coupon not found or already used"

/-- Embedding of the per-candidate random token computation of
`DatabaseStorage.generateUniqueCouponCode`:
`Math.random().toString(36).substring(2, 8).toUpperCase()`, applied to the
string `s` produced by `Math.random().toString(36)`. -/
def randomPart (s : String) : String :=
  String.mk (((s.toList.drop 2).take 6).map Char.toUpper)

/-- The fuel-kind tag of `DatabaseStorage.generateUniqueCouponCode`:
`fuelType === 'petrol' ? 'PET' : 'DSL'`. -/
def kindTag (fuelType : String) : String :=
  if fuelType == "petrol" then "PET" else "DSL"

/-- The candidate-code template literal of
`DatabaseStorage.generateUniqueCouponCode`:
`` `FUEL-${prefix}-${amount}L-${randomPart}` `` for the random source
string `s`. -/
def couponCodeOf (fuelType : String) (amount : Rat) (s : String) : String :=
  "FUEL-" ++ kindTag fuelType ++ "-" ++ ratToJsString amount ++ "L-" ++ randomPart s

/-- Embedding of `DatabaseStorage.generateUniqueCouponCode`: build
`FUEL-<PET|DSL>-<amount>L-<randomPart>` candidates and retry until
`getCouponByCode` finds no existing coupon with the candidate code.
`rnds` is the stream of strings produced by the successive
`Math.random().toString(36)` calls; `none` models the loop not having
terminated within the supplied stream. -/
def generateUniqueCouponCode (db : DB) (fuelType : String) (amount : Rat) :
    List String → Option String
  | [] => none
  | s :: rest =>
    if (getCouponByCode db (couponCodeOf fuelType amount s)).isNone then
      some (couponCodeOf fuelType amount s)
    else generateUniqueCouponCode db fuelType amount rest

/-- The payload of `POST /api/coupons` after validation
(`InsertCoupon` in the schema). -/
structure InsertCoupon where
  fuelType : String
  amount : String
  expiryDate : Option Int
deriving DecidableEq

/-- Embedding of `DatabaseStorage.createCoupon`: generate a unique code for
`parseFloat(data.amount)` and insert the coupon.  The inserted row's
initial status `'active'` is the schema's column default (the schema file
is outside `src/`; per the spec a coupon starts `active` until used). -/
def createCoupon (db : DB) (data : InsertCoupon) (rnds : List String) :
    Option (DB × Coupon) :=
  match generateUniqueCouponCode db data.fuelType (parseFloatJS data.amount) rnds with
  | none => none
  | some code =>
    let c : Coupon :=
      { code := code, fuelType := data.fuelType, amount := data.amount,
        status := "active", usedBy := none, usedAt := none,
        expiryDate := data.expiryDate }
    some ({ db with coupons := db.coupons ++ [c] }, c)

/-- Embedding of `DatabaseStorage.getVehicleById`. -/
def getVehicleById (db : DB) (id : String) : Option Vehicle :=
  db.vehicles.find? (fun v => v.id == id)

/-- Embedding of `DatabaseStorage.approveVehicle`: an unconditional
`UPDATE vehicles SET status = 'approved', approvedAt = now,
approvedBy = adminId WHERE id = vehicleId RETURNING` — there is no check of
the vehicle's current status.  Returns the updated row, or `none`
(JavaScript `undefined`) when no vehicle has that id. -/
def approveVehicle (db : DB) (now : Nat) (vehicleId adminId : String) :
    DB × Option Vehicle :=
  let f := fun (v : Vehicle) =>
    if v.id == vehicleId then
      { v with status := "approved", approvedAt := some now, approvedBy := some adminId }
    else v
  ({ db with vehicles := db.vehicles.map f },
    (db.vehicles.find? (fun v => v.id == vehicleId)).map f)

/-- Embedding of `DatabaseStorage.rejectVehicle`: an unconditional
`UPDATE vehicles SET status = 'rejected', approvedBy = adminId,
rejectionReason = reason WHERE id = vehicleId RETURNING` — no status check,
and `approvedAt` is not touched. -/
def rejectVehicle (db : DB) (vehicleId adminId reason : String) :
    DB × Option Vehicle :=
  let f := fun (v : Vehicle) =>
    if v.id == vehicleId then
      { v with status := "rejected", approvedBy := some adminId,
               rejectionReason := some reason }
    else v
  ({ db with vehicles := db.vehicles.map f },
    (db.vehicles.find? (fun v => v.id == vehicleId)).map f)

/-- The `completedAt` value stored by `updateTransactionStatus`: an omitted
(`undefined`) argument is dropped from the `SET` clause by the ORM, keeping
the old value. -/
def caOf (ca : Option Nat) (old : Option Nat) : Option Nat :=
  match ca with
  | some d => some d
  | none => old

/-- Embedding of `DatabaseStorage.getTransactionById`. -/
def getTransactionById (db : DB) (id : String) : Option Txn :=
  db.transactions.find? (fun t => t.id == id)

/-- Embedding of `DatabaseStorage.updateTransactionStatus`: an unconditional
`UPDATE transactions SET status, completedAt WHERE id RETURNING` — no check
of the current status.  An omitted `completedAt` argument (`none`) is
dropped from the `SET` clause by the ORM, leaving the stored value. -/
def updateTransactionStatus (db : DB) (id st : String) (completedAt : Option Nat) :
    DB × Option Txn :=
  let f := fun (t : Txn) =>
    if t.id == id then
      { t with status := st, completedAt := caOf completedAt t.completedAt }
    else t
  ({ db with transactions := db.transactions.map f },
    (db.transactions.find? (fun t => t.id == id)).map f)

/-- The JSON error body `{ error: msg }` used by the route handlers. -/
def errJson (msg : String) : Json :=
  Json.obj [("error", Json.str msg)]

/-- The JSON serialization of a coupon row (`res.json(coupon)`); the
`numeric` amount column reaches JavaScript as a decimal string. -/
def couponToJson (c : Coupon) : Json :=
  Json.obj
    [("code", Json.str c.code),
     ("fuelType", Json.str c.fuelType),
     ("amount", Json.str c.amount),
     ("status", Json.str c.status),
     ("usedBy", (c.usedBy.map Json.str).getD Json.null),
     ("usedAt", (c.usedAt.map (fun n => Json.num (n : Rat))).getD Json.null),
     ("expiryDate", (c.expiryDate.map (fun n => Json.num (n : Rat))).getD Json.null)]

/-- The JSON serialization of a vehicle row (`res.json(vehicle)`). -/
def vehicleToJson (v : Vehicle) : Json :=
  Json.obj
    [("id", Json.str v.id),
     ("ownerId", Json.str v.ownerId),
     ("status", Json.str v.status),
     ("approvedBy", (v.approvedBy.map Json.str).getD Json.null),
     ("approvedAt", (v.approvedAt.map (fun n => Json.num (n : Rat))).getD Json.null),
     ("rejectionReason", (v.rejectionReason.map Json.str).getD Json.null)]

/-- Embedding of the `POST /api/coupons/redeem` handler (`routes.ts`).
`userId` is `req.user?.id`; `now` models the clock.  `creditFault` injects
the possible failure of the second awaited storage call
(`storage.updateFuelBalance`): `none` means the call succeeds, `some msg`
means the underlying database call rejects with an `Error` carrying `msg`,
which the handler's catch block maps to a 400 response with that message —
with no compensation of the already-performed coupon update. -/
def redeemHandlerF (db : DB) (now : Nat) (userId : Option String) (code : String)
    (creditFault : Option String) : DB × HttpResponse :=
  match userId with
  | none => (db, ⟨401, some (errJson "Not authenticated")⟩)
  | some uid =>
    match redeemCoupon db now code uid with
    | Except.error msg => (db, ⟨400, some (errJson msg)⟩)
    | Except.ok (db1, c) =>
      match creditFault with
      | none =>
        let db2 := (updateFuelBalance db1 uid c.fuelType (parseFloatJS c.amount)).1
        (db2, ⟨200, some (couponToJson c)⟩)
      | some msg => (db1, ⟨400, some (errJson msg)⟩)

/-- The `POST /api/coupons/redeem` handler on an execution where both
storage calls succeed. -/
def redeemRoute (db : DB) (now : Nat) (userId : Option String) (code : String) :
    DB × HttpResponse :=
  redeemHandlerF db now userId code none

/-- The balance string a fuel-balances handler puts in its response:
`balanceRow?.balance || '0.00'`; the driver returns the `numeric` column as
a decimal string, rendered here from its rational value. -/
def balStr (o : Option FuelBalanceRow) : String :=
  match o with
  | some r => ratToJsString r.balance
  | none => "0.00"

/-- Embedding of the first `GET /api/fuel-balances` handler registered in
`registerRoutes` (`routes.ts` lines 81-105): initialize the user's balance
rows, then respond with a two-element JSON array of
`{fuelType, balance}` objects. -/
def fuelBalancesHandlerA (db : DB) (userId : Option String) : DB × HttpResponse :=
  match userId with
  | none => (db, ⟨401, some (errJson "Not authenticated")⟩)
  | some uid =>
    let db1 := initFuelBalances db uid
    let p := getFuelBalance db1 uid "petrol"
    let d := getFuelBalance db1 uid "diesel"
    (db1, ⟨200, some (Json.arr
      [Json.obj [("fuelType", Json.str "petrol"), ("balance", Json.str (balStr p))],
       Json.obj [("fuelType", Json.str "diesel"), ("balance", Json.str (balStr d))]])⟩)

/-- Embedding of the second `GET /api/fuel-balances` handler registered in
`registerRoutes` (`routes.ts` lines 196-213): respond with the object
`{petrol, diesel}` of balance strings. -/
def fuelBalancesHandlerB (db : DB) (userId : Option String) : DB × HttpResponse :=
  match userId with
  | none => (db, ⟨401, some (errJson "Not authenticated")⟩)
  | some uid =>
    let p := getFuelBalance db uid "petrol"
    let d := getFuelBalance db uid "diesel"
    (db, ⟨200, some (Json.obj
      [("petrol", Json.str (balStr p)), ("diesel", Json.str (balStr d))])⟩)

/-- The handlers registered for `GET /api/fuel-balances`, in registration
order (`registerRoutes` registers the path twice). -/
def fuelBalancesHandlers : List (DB → Option String → DB × HttpResponse) :=
  [fuelBalancesHandlerA, fuelBalancesHandlerB]

/-- Express dispatch for `GET /api/fuel-balances`: a request runs the first
registered matching handler; the handler ends the response without calling
`next()`, so later registrations for the same path never run. -/
def dispatchFuelBalances (db : DB) (userId : Option String) : DB × HttpResponse :=
  match fuelBalancesHandlers with
  | [] => (db, ⟨404, none⟩)
  | h :: _ => h db userId

/-- Embedding of the `PATCH /api/vehicles/:id/approve` handler: call
`approveVehicle` and `res.json(vehicle)` — a missing vehicle gives
`res.json(undefined)`, a 200 response with an empty body. -/
def approveRoute (db : DB) (now : Nat) (adminId : Option String) (vid : String) :
    DB × HttpResponse :=
  match adminId with
  | none => (db, ⟨401, some (errJson "Not authenticated")⟩)
  | some aid =>
    let p := approveVehicle db now vid aid
    (p.1, ⟨200, p.2.map vehicleToJson⟩)

/-- Embedding of the `PATCH /api/vehicles/:id/reject` handler: call
`rejectVehicle` and `res.json(vehicle)` — a missing vehicle gives
`res.json(undefined)`, a 200 response with an empty body. -/
def rejectRoute (db : DB) (adminId : Option String) (vid reason : String) :
    DB × HttpResponse :=
  match adminId with
  | none => (db, ⟨401, some (errJson "Not authenticated")⟩)
  | some aid =>
    let p := rejectVehicle db vid aid reason
    (p.1, ⟨200, p.2.map vehicleToJson⟩)

/-- The empty database. -/
def emptyDB : DB := ⟨[], [], [], []⟩

/-- Iterated application of `updateFuelBalance` for one (user, fuel-kind):
the sequence of calls a client issues. -/
def applyDeltas (db : DB) (u k : String) : List Rat → DB
  | [] => db
  | d :: ds => applyDeltas (updateFuelBalance db u k d).1 u k ds

/-- After an upsert, the stored balance for the touched key is the previous
stored balance (0 when the row was missing) plus the delta. -/
theorem upsertBalance_lookup (u k : String) (a : Rat) :
    ∀ rows : List FuelBalanceRow,
      ((upsertBalance rows u k a).1.find?
          (fun r => r.userId == u && r.fuelType == k)).map FuelBalanceRow.balance
        = some ((((rows.find? (fun r => r.userId == u && r.fuelType == k)).map
            FuelBalanceRow.balance).getD 0) + a)
  | [] => by simp [upsertBalance]
  | r :: rs => by
    by_cases h : (r.userId == u && r.fuelType == k) = true
    · simp [upsertBalance, h]
    · simp only [upsertBalance, h, if_false, Bool.false_eq_true, List.find?_cons_of_neg,
        ne_eq, not_false_iff]
      simpa [h] using upsertBalance_lookup u k a rs

/-- `updateFuelBalance` adds the delta to the stored balance of its key. -/
theorem balanceVal_update (db : DB) (u k : String) (a : Rat) :
    (getFuelBalance (updateFuelBalance db u k a).1 u k).map FuelBalanceRow.balance
      = some (balanceVal db u k + a) := by
  simp [getFuelBalance, updateFuelBalance, balanceVal, upsertBalance_lookup]

/-- The stored-balance value after `updateFuelBalance`. -/
theorem balanceVal_update' (db : DB) (u k : String) (a : Rat) :
    balanceVal (updateFuelBalance db u k a).1 u k = balanceVal db u k + a := by
  simp [balanceVal, balanceVal_update]

/-- After a nonempty sequence of deltas, the stored balance is the starting
value plus their sum. -/
theorem applyDeltas_val (u k : String) :
    ∀ (ds : List Rat) (db : DB), ds ≠ [] →
      (getFuelBalance (applyDeltas db u k ds) u k).map FuelBalanceRow.balance
        = some (balanceVal db u k + ds.sum)
  | [], _, h => absurd rfl h
  | [d], db, _ => by simp [applyDeltas, balanceVal_update]
  | d :: d' :: ds, db, _ => by
    have ih := applyDeltas_val u k (d' :: ds) (updateFuelBalance db u k d).1 (by simp)
    show (getFuelBalance (applyDeltas (updateFuelBalance db u k d).1 u k (d' :: ds)) u k).map
        FuelBalanceRow.balance = _
    rw [ih, balanceVal_update']
    simp [add_assoc]

/-- C3: starting from no balance row, applying the deltas d1..dn (n ≥ 1)
stores exactly their sum, and any reordering of the deltas stores the same
value. -/
theorem C3_balance_sum (db : DB) (u k : String) (ds : List Rat)
    (h : getFuelBalance db u k = none) (hne : ds ≠ []) :
    (getFuelBalance (applyDeltas db u k ds) u k).map FuelBalanceRow.balance = some ds.sum
    ∧ ∀ ds' : List Rat, ds.Perm ds' →
        (getFuelBalance (applyDeltas db u k ds') u k).map FuelBalanceRow.balance
          = (getFuelBalance (applyDeltas db u k ds) u k).map FuelBalanceRow.balance := by
  have h0 : balanceVal db u k = 0 := by simp [balanceVal, h]
  have h1 := applyDeltas_val u k ds db hne
  rw [h0, zero_add] at h1
  refine ⟨h1, ?_⟩
  intro ds' hp
  have hne' : ds' ≠ [] := by
    intro hc
    apply hne
    have := hp.length_eq
    rw [hc] at this
    exact List.length_eq_zero.mp this
  have h2 := applyDeltas_val u k ds' db hne'
  rw [h0, zero_add, ← hp.sum_eq] at h2
  rw [h1, h2]

/-- Witness for C3: two deltas 2 and 3 on a fresh user store balance 5. -/
theorem C3_balance_sum_witness :
    (getFuelBalance emptyDB "u" "petrol" = none ∧ ([2, 3] : List Rat) ≠ [])
    ∧ ((getFuelBalance (applyDeltas emptyDB "u" "petrol" [2, 3]) "u" "petrol").map
          FuelBalanceRow.balance = some ([2, 3] : List Rat).sum
      ∧ ∀ ds' : List Rat, ([2, 3] : List Rat).Perm ds' →
          (getFuelBalance (applyDeltas emptyDB "u" "petrol" ds') "u" "petrol").map
              FuelBalanceRow.balance
            = (getFuelBalance (applyDeltas emptyDB "u" "petrol" [2, 3]) "u" "petrol").map
                FuelBalanceRow.balance) :=
  ⟨⟨by decide, by decide⟩,
    C3_balance_sum emptyDB "u" "petrol" [2, 3] (by decide) (by decide)⟩

/-- Inversion of a successful `redeemCoupon`: the balances are untouched and
every coupon matching (code, active) is marked used. -/
theorem redeemCoupon_ok_inv (db : DB) (now : Nat) (code uid : String) (db' : DB)
    (c : Coupon) (h : redeemCoupon db now code uid = Except.ok (db', c)) :
    db'.fuelBalances = db.fuelBalances ∧
    db'.coupons = db.coupons.map (fun x =>
      if x.code == code && x.status == "active" then
        { x with status := "used", usedAt := some now, usedBy := some uid }
      else x) := by
  unfold redeemCoupon at h
  cases hf : db.coupons.find? (fun c => c.code == code && c.status == "active") with
  | none => rw [hf] at h; exact absurd h (by simp)
  | some c0 =>
    rw [hf] at h
    injection h with h'
    injection h' with h1 h2
    subst h1
    exact ⟨rfl, rfl⟩

/-- After a successful `redeemCoupon`, no active coupon with that code
remains. -/
theorem redeemCoupon_ok_no_active (db : DB) (now : Nat) (code uid : String)
    (db' : DB) (c : Coupon) (h : redeemCoupon db now code uid = Except.ok (db', c)) :
    db'.coupons.find? (fun x => x.code == code && x.status == "active") = none := by
  obtain ⟨-, hc⟩ := redeemCoupon_ok_inv db now code uid db' c h
  rw [hc, List.find?_eq_none]
  intro x hx
  obtain ⟨y, hy, rfl⟩ := List.mem_map.mp hx
  by_cases hb : (y.code == code && y.status == "active") = true
  · simp [hb]
  · simp only [hb, if_false, Bool.false_eq_true]
    simp [hb]

/-- `redeemCoupon` on a state with no active coupon of the given code fails
with the conflict error. -/
theorem redeemCoupon_err (db : DB) (now : Nat) (code uid : String)
    (h : db.coupons.find? (fun x => x.code == code && x.status == "active") = none) :
    redeemCoupon db now code uid = Except.error "Coupon not found or already used" := by
  unfold redeemCoupon
  rw [h]

/-- The redeem route on a successful redemption: credit the balance and
answer 200 with the coupon. -/
theorem redeemRoute_ok (db : DB) (now : Nat) (code uid : String) (db' : DB)
    (c : Coupon) (h : redeemCoupon db now code uid = Except.ok (db', c)) :
    redeemRoute db now (some uid) code
      = ((updateFuelBalance db' uid c.fuelType (parseFloatJS c.amount)).1,
          ⟨200, some (couponToJson c)⟩) := by
  simp [redeemRoute, redeemHandlerF, h]

/-- The redeem route on a failing redemption: no state change, 400 with the
error message. -/
theorem redeemRoute_err (db : DB) (now : Nat) (code uid msg : String)
    (h : redeemCoupon db now code uid = Except.error msg) :
    redeemRoute db now (some uid) code = (db, ⟨400, some (errJson msg)⟩) := by
  simp [redeemRoute, redeemHandlerF, h]

/-- `updateFuelBalance` does not touch the coupons table. -/
theorem updateFuelBalance_coupons (db : DB) (u k : String) (a : Rat) :
    (updateFuelBalance db u k a).1.coupons = db.coupons := rfl

/-- `parseFloat` agrees with a successful decimal parse. -/
theorem parseFloatJS_of_parseDec (s : String) (q : Rat) (hq : parseDec s = some q) :
    parseFloatJS s = q := by
  simp [parseFloatJS, hq]

/-- `balanceVal` only depends on the balance rows. -/
theorem balanceVal_congr (db db' : DB) (u k : String)
    (h : db'.fuelBalances = db.fuelBalances) :
    balanceVal db' u k = balanceVal db u k := by
  simp [balanceVal, getFuelBalance, h]

/-- C1: once a coupon code is redeemed, a second redemption by any user
fails with 'Coupon not found or already used' — at the storage level and as
a 400 response — changing no state, and the first redeemer's balance holds
exactly one credit of the coupon's amount. -/
theorem C1_redeem_twice (db : DB) (t1 t2 : Nat) (code u1 u2 : String) (db1 : DB)
    (c : Coupon) (q : Rat)
    (h : redeemCoupon db t1 code u1 = Except.ok (db1, c))
    (hq : parseDec c.amount = some q) :
    (redeemRoute db t1 (some u1) code).2.status = 200
    ∧ redeemCoupon (redeemRoute db t1 (some u1) code).1 t2 code u2
        = Except.error "Coupon not found or already used"
    ∧ (redeemRoute (redeemRoute db t1 (some u1) code).1 t2 (some u2) code).2
        = ⟨400, some (errJson "Coupon not found or already used")⟩
    ∧ (redeemRoute (redeemRoute db t1 (some u1) code).1 t2 (some u2) code).1
        = (redeemRoute db t1 (some u1) code).1
    ∧ balanceVal (redeemRoute db t1 (some u1) code).1 u1 c.fuelType
        = balanceVal db u1 c.fuelType + q := by
  have hr := redeemRoute_ok db t1 code u1 db1 c h
  have hnoact : (redeemRoute db t1 (some u1) code).1.coupons.find?
      (fun x => x.code == code && x.status == "active") = none := by
    rw [hr]
    rw [updateFuelBalance_coupons]
    exact redeemCoupon_ok_no_active db t1 code u1 db1 c h
  have herr := redeemCoupon_err (redeemRoute db t1 (some u1) code).1 t2 code u2 hnoact
  refine ⟨by rw [hr], herr, ?_, ?_, ?_⟩
  · rw [redeemRoute_err _ t2 code u2 _ herr]
  · rw [redeemRoute_err _ t2 code u2 _ herr]
  · rw [hr]
    obtain ⟨hbal, -⟩ := redeemCoupon_ok_inv db t1 code u1 db1 c h
    rw [parseFloatJS_of_parseDec c.amount q hq]
    rw [balanceVal_update']
    rw [balanceVal_congr db db1 u1 c.fuelType hbal]

/-- A concrete active coupon for the C1 witness. -/
def cpnC1 : Coupon :=
  ⟨"FUEL-PET-7L-AAAAAA", "petrol", "7", "active", none, none, none⟩

/-- The C1 witness coupon after redemption by `u1` at time 1. -/
def cpnC1used : Coupon :=
  ⟨"FUEL-PET-7L-AAAAAA", "petrol", "7", "used", some "u1", some 1, none⟩

/-- A database holding just the C1 witness coupon. -/
def dbC1 : DB := ⟨[], [cpnC1], [], []⟩

/-- The C1 witness database after the coupon was redeemed. -/
def dbC1' : DB := ⟨[], [cpnC1used], [], []⟩

/-- Witness for C1 at a concrete redemption. -/
theorem C1_redeem_twice_witness :
    (redeemCoupon dbC1 1 "FUEL-PET-7L-AAAAAA" "u1" = Except.ok (dbC1', cpnC1used)
      ∧ parseDec cpnC1used.amount = some 7)
    ∧ ((redeemRoute dbC1 1 (some "u1") "FUEL-PET-7L-AAAAAA").2.status = 200
      ∧ redeemCoupon (redeemRoute dbC1 1 (some "u1") "FUEL-PET-7L-AAAAAA").1 2
          "FUEL-PET-7L-AAAAAA" "u2"
          = Except.error "Coupon not found or already used"
      ∧ (redeemRoute (redeemRoute dbC1 1 (some "u1") "FUEL-PET-7L-AAAAAA").1 2
            (some "u2") "FUEL-PET-7L-AAAAAA").2
          = ⟨400, some (errJson "Coupon not found or already used")⟩
      ∧ (redeemRoute (redeemRoute dbC1 1 (some "u1") "FUEL-PET-7L-AAAAAA").1 2
            (some "u2") "FUEL-PET-7L-AAAAAA").1
          = (redeemRoute dbC1 1 (some "u1") "FUEL-PET-7L-AAAAAA").1
      ∧ balanceVal (redeemRoute dbC1 1 (some "u1") "FUEL-PET-7L-AAAAAA").1 "u1"
            cpnC1used.fuelType
          = balanceVal dbC1 "u1" cpnC1used.fuelType + 7) :=
  ⟨⟨by rfl, by decide⟩,
    C1_redeem_twice dbC1 1 2 "FUEL-PET-7L-AAAAAA" "u1" "u2" dbC1' cpnC1used 7
      (by rfl) (by decide)⟩

/-- C4: a code returned by the generate-and-check-retry loop collides with
no coupon already present in the store, active or historical: the loop only
returns once `getCouponByCode` finds nothing. -/
theorem C4_unique_code (db : DB) (ft : String) (a : Rat) :
    ∀ (rnds : List String) (code : String),
      generateUniqueCouponCode db ft a rnds = some code →
      getCouponByCode db code = none ∧ ∀ c ∈ db.coupons, c.code ≠ code
  | [], _, h => by simp [generateUniqueCouponCode] at h
  | s :: rest, code, h => by
    unfold generateUniqueCouponCode at h
    split at h
    · injection h with h'
      subst h'
      refine ⟨Option.isNone_iff_eq_none.mp (by assumption), ?_⟩
      intro c hc hcode
      have hn : getCouponByCode db _ = none := Option.isNone_iff_eq_none.mp (by assumption)
      rw [getCouponByCode, List.find?_eq_none] at hn
      exact absurd (by simp [hcode]) (hn c hc)
    · exact C4_unique_code db ft a rest code h

/-- A database holding one coupon whose code collides with the first
generated candidate of the C4 witness. -/
def dbC4 : DB :=
  ⟨[], [⟨"FUEL-PET-5L-AAAAAA", "petrol", "5", "active", none, none, none⟩], [], []⟩

/-- Witness for C4: the first candidate collides, the loop retries and the
returned second candidate is fresh. -/
theorem C4_unique_code_witness :
    generateUniqueCouponCode dbC4 "petrol" 5 ["0.aaaaaa", "0.bbbbbb"]
        = some "FUEL-PET-5L-BBBBBB"
    ∧ (getCouponByCode dbC4 "FUEL-PET-5L-BBBBBB" = none
        ∧ ∀ c ∈ dbC4.coupons, c.code ≠ "FUEL-PET-5L-BBBBBB") :=
  ⟨by decide,
    C4_unique_code dbC4 "petrol" 5 ["0.aaaaaa", "0.bbbbbb"] "FUEL-PET-5L-BBBBBB"
      (by decide)⟩

/-- The base-36 digit alphabet: the characters
`Number.prototype.toString(36)` emits after the leading `0.`. -/
def base36Chars : List Char := "0123456789abcdefghijklmnopqrstuvwxyz".toList

/-- The character class `[A-Z0-9]`. -/
def isUpperAlnum (ch : Char) : Bool := ch.isUpper || ch.isDigit

/-- The fixed part `FUEL-<tag>-<amt>L-` of the spec's coupon-code pattern. -/
def couponPatPre (tag amt : String) : List Char :=
  ("FUEL-" ++ tag ++ "-" ++ amt ++ "L-").toList

/-- The spec's pattern check `FUEL-<tag>-<amt>L-[A-Z0-9]{6}`. -/
def matchesCouponPat (tag amt code : String) : Bool :=
  (code.toList.take (couponPatPre tag amt).length == couponPatPre tag amt)
    && ((code.toList.drop (couponPatPre tag amt).length).length == 6)
    && (code.toList.drop (couponPatPre tag amt).length).all isUpperAlnum

/-- Every code the generator returns is built from one stream element by the
`FUEL-<tag>-<amount>L-<token>` template. -/
theorem generate_shape (db : DB) (ft : String) (a : Rat) :
    ∀ (rnds : List String) (code : String),
      generateUniqueCouponCode db ft a rnds = some code →
      ∃ s ∈ rnds, code = couponCodeOf ft a s
  | [], _, h => by simp [generateUniqueCouponCode] at h
  | s :: rest, code, h => by
    unfold generateUniqueCouponCode at h
    split at h
    · injection h with h'
      exact ⟨s, List.mem_cons_self s rest, h'.symm⟩
    · obtain ⟨s', hs', he⟩ := generate_shape db ft a rest code h
      exact ⟨s', List.mem_cons_of_mem s hs', he⟩

/-- `parseFloat('10.00')` is 10. -/
theorem parseFloatJS_ten : parseFloatJS "10.00" = 10 := by
  have h : parseFloatJS "10.00" = ((10 : Nat) : Rat) + ((0 : Nat) : Rat) / (10 : Rat) ^ 2 :=
    rfl
  rw [h]
  norm_num

/-- C5 counterexample: when `Math.random()` returns 0.5 its base-36 string
is `"0.i"`, `substring(2, 8)` keeps the single character `i`, and the coupon
created for `{fuelType: 'petrol', amount: '10.00'}` gets the code
`FUEL-PET-10L-I`, which does not match `FUEL-PET-10L-[A-Z0-9]{6}`. -/
theorem C5_counterexample :
    (createCoupon emptyDB ⟨"petrol", "10.00", none⟩ ["0.i"]).map (fun p => p.2.code)
      = some "FUEL-PET-10L-I"
    ∧ matchesCouponPat "PET" "10" "FUEL-PET-10L-I" = false := by
  constructor
  · have hg : generateUniqueCouponCode emptyDB "petrol" (parseFloatJS "10.00") ["0.i"]
        = some "FUEL-PET-10L-I" := by
      rw [parseFloatJS_ten]
      decide
    simp [createCoupon, hg]
  · decide

/-- Uppercasing a base-36 digit yields an `[A-Z0-9]` character. -/
theorem base36_toUpper : ∀ ch ∈ base36Chars, isUpperAlnum (Char.toUpper ch) = true := by
  decide

/-- Inversion of a successful `createCoupon`. -/
theorem createCoupon_ok_inv (db : DB) (data : InsertCoupon) (rnds : List String)
    (db' : DB) (c : Coupon) (h : createCoupon db data rnds = some (db', c)) :
    generateUniqueCouponCode db data.fuelType (parseFloatJS data.amount) rnds
        = some c.code
    ∧ c.fuelType = data.fuelType ∧ c.amount = data.amount ∧ c.status = "active" := by
  unfold createCoupon at h
  cases hg : generateUniqueCouponCode db data.fuelType (parseFloatJS data.amount) rnds with
  | none => rw [hg] at h; exact absurd h (by simp)
  | some code =>
    rw [hg] at h
    injection h with h'
    injection h' with h1 h2
    subst h2
    exact ⟨rfl, rfl, rfl, rfl⟩

/-- The random token is at most 6 characters. -/
theorem randomPart_length_le (s : String) : (randomPart s).length ≤ 6 := by
  have h1 : (randomPart s).length = (((s.toList.drop 2).take 6).map Char.toUpper).length :=
    rfl
  rw [h1, List.length_map, List.length_take]
  exact min_le_left _ _

/-- When the random source supplies at least 6 base-36 digits after `0.`,
the petrol/amount-10 code matches the full pattern. -/
theorem pat_of_good_source (s : String) (hlen : 6 ≤ (s.toList.drop 2).length)
    (hdig : ∀ ch ∈ s.toList.drop 2, ch ∈ base36Chars) :
    matchesCouponPat "PET" "10" (couponCodeOf "petrol" 10 s) = true := by
  have h1 : couponCodeOf "petrol" 10 s
      = ("FUEL-" ++ "PET" ++ "-" ++ "10" ++ "L-") ++ randomPart s := by
    show "FUEL-" ++ kindTag "petrol" ++ "-" ++ ratToJsString 10 ++ "L-" ++ randomPart s = _
    rw [show kindTag "petrol" = "PET" from rfl, show ratToJsString 10 = "10" by decide]
  have hcode : (couponCodeOf "petrol" 10 s).toList
      = couponPatPre "PET" "10" ++ (randomPart s).toList := by
    rw [h1]
    exact String.data_append _ _
  have ht : (randomPart s).toList.length = 6 := by
    have h2 : (randomPart s).toList = ((s.toList.drop 2).take 6).map Char.toUpper := rfl
    rw [h2, List.length_map, List.length_take]
    exact min_eq_left hlen
  have hall : (randomPart s).toList.all isUpperAlnum = true := by
    rw [List.all_eq_true]
    intro x hx
    have h2 : (randomPart s).toList = ((s.toList.drop 2).take 6).map Char.toUpper := rfl
    rw [h2] at hx
    obtain ⟨ch, hch, rfl⟩ := List.mem_map.mp hx
    exact base36_toUpper ch (hdig ch (List.mem_of_mem_take hch))
  rw [matchesCouponPat, hcode, List.take_left, List.drop_left, ht, hall]
  simp

/-- C5, amended: every created coupon's code is
`FUEL-<PET|DSL>-<amount>L-<token>` where the token is the uppercased
`substring(2, 8)` (at most six characters) of the random source string; in
the petrol/'10.00' scenario the code matches `FUEL-PET-10L-[A-Z0-9]{6}`
exactly when the random source supplies at least six base-36 digits. -/
theorem C5_code_shape (db : DB) (data : InsertCoupon) (rnds : List String)
    (db' : DB) (c : Coupon) (h : createCoupon db data rnds = some (db', c)) :
    ∃ s ∈ rnds,
      c.code = "FUEL-" ++ (if data.fuelType == "petrol" then "PET" else "DSL")
        ++ "-" ++ ratToJsString (parseFloatJS data.amount) ++ "L-" ++ randomPart s
      ∧ (randomPart s).length ≤ 6
      ∧ (data.fuelType = "petrol" → data.amount = "10.00" →
          6 ≤ (s.toList.drop 2).length →
          (∀ ch ∈ s.toList.drop 2, ch ∈ base36Chars) →
          matchesCouponPat "PET" "10" c.code = true) := by
  obtain ⟨hg, -, -, -⟩ := createCoupon_ok_inv db data rnds db' c h
  obtain ⟨s, hs, he⟩ := generate_shape db data.fuelType (parseFloatJS data.amount) rnds c.code hg
  refine ⟨s, hs, by rw [he]; rfl, randomPart_length_le s, ?_⟩
  intro hpet hamt10 hlen hdig
  rw [he, hpet, hamt10, parseFloatJS_ten]
  exact pat_of_good_source s hlen hdig

/-- The coupon created by the C5 witness. -/
def cpnC5w : Coupon :=
  ⟨"FUEL-PET-10L-ABC123", "petrol", "10", "active", none, none, none⟩

/-- The database after the C5 witness creation. -/
def dbC5w : DB := ⟨[], [cpnC5w], [], []⟩

/-- Witness for the amended C5 at a concrete creation. -/
theorem C5_code_shape_witness :
    createCoupon emptyDB ⟨"petrol", "10", none⟩ ["0.abc123"] = some (dbC5w, cpnC5w)
    ∧ ∃ s ∈ ["0.abc123"],
        cpnC5w.code = "FUEL-"
            ++ (if (InsertCoupon.mk "petrol" "10" none).fuelType == "petrol" then "PET" else "DSL")
            ++ "-" ++ ratToJsString (parseFloatJS (InsertCoupon.mk "petrol" "10" none).amount)
            ++ "L-" ++ randomPart s
        ∧ (randomPart s).length ≤ 6
        ∧ ((InsertCoupon.mk "petrol" "10" none).fuelType = "petrol" →
            (InsertCoupon.mk "petrol" "10" none).amount = "10.00" →
            6 ≤ (s.toList.drop 2).length →
            (∀ ch ∈ s.toList.drop 2, ch ∈ base36Chars) →
            matchesCouponPat "PET" "10" cpnC5w.code = true) :=
  ⟨by decide,
    C5_code_shape emptyDB ⟨"petrol", "10", none⟩ ["0.abc123"] dbC5w cpnC5w (by decide)⟩

/-- `redeemCoupon` succeeds exactly when the conditional update matches a
row: its lookup is on (code, status) only. -/
theorem redeemCoupon_isOk (db : DB) (now : Nat) (code uid : String) :
    (redeemCoupon db now code uid).isOk
      = (db.coupons.find? (fun c => c.code == code && c.status == "active")).isSome := by
  unfold redeemCoupon
  cases hf : db.coupons.find? (fun c => c.code == code && c.status == "active") <;> rfl

/-- Overwrite every coupon's expiry date (used to state that redemption
never reads it). -/
def setAllExpiry (db : DB) (t : Int) : DB :=
  { db with coupons := db.coupons.map (fun c => { c with expiryDate := some t }) }

/-- C9: redemption never consults `expiryDate` — it succeeds exactly when an
active coupon with the code exists, and replacing every expiry date by an
arbitrary instant (in particular one in the past) does not change the
outcome. -/
theorem C9_no_expiry_check (db : DB) (now : Nat) (code uid : String) :
    ((redeemCoupon db now code uid).isOk = true
      ↔ ∃ c ∈ db.coupons, c.code = code ∧ c.status = "active")
    ∧ ∀ t : Int, (redeemCoupon (setAllExpiry db t) now code uid).isOk
        = (redeemCoupon db now code uid).isOk := by
  constructor
  · rw [redeemCoupon_isOk, List.find?_isSome]
    simp [Bool.and_eq_true, beq_iff_eq]
  · intro t
    rw [redeemCoupon_isOk, redeemCoupon_isOk]
    show ((db.coupons.map (fun c => { c with expiryDate := some t })).find?
        (fun c => c.code == code && c.status == "active")).isSome = _
    rw [List.find?_map]
    have hpf : ((fun c : Coupon => c.code == code && c.status == "active")
          ∘ (fun c : Coupon => { c with expiryDate := some t }))
        = (fun c : Coupon => c.code == code && c.status == "active") :=
      funext (fun _ => rfl)
    rw [hpf]
    cases db.coupons.find? (fun c => c.code == code && c.status == "active") <;> rfl

/-- A map that updates the rows matching an id, with an update that
preserves the id, commutes with the id lookup. -/
theorem find?_map_update {α : Type} (idOf : α → String) (vid : String) (g : α → α)
    (hg : ∀ x, idOf (g x) = idOf x) (l : List α) :
    (l.map (fun x => if idOf x == vid then g x else x)).find? (fun x => idOf x == vid)
      = (l.find? (fun x => idOf x == vid)).map
          (fun x => if idOf x == vid then g x else x) := by
  rw [List.find?_map]
  have hpf : ((fun x => idOf x == vid) ∘ (fun x => if idOf x == vid then g x else x))
      = (fun x => idOf x == vid) := by
    funext x
    by_cases hx : (idOf x == vid) = true <;> simp [Function.comp, hx, hg]
  rw [hpf]

/-- The approved vehicle of the C6 counterexample (status is terminal, not
`pending`). -/
def vApprC6 : Vehicle := ⟨"v1", "owner1", "approved", some "admin1", some 10, none⟩

/-- C6 counterexample database: one already-approved vehicle. -/
def dbC6 : DB := ⟨[], [], [vApprC6], []⟩

/-- The C6 vehicle after the unguarded rejection overwrote its state. -/
def vRejC6 : Vehicle := ⟨"v1", "owner1", "rejected", some "admin2", some 10, some "dup"⟩

/-- C6 counterexample: rejecting an already-approved (non-pending) vehicle
does not fail — it overwrites the record with status 'rejected'. -/
theorem C6_counterexample :
    getVehicleById dbC6 "v1" = some vApprC6
    ∧ vApprC6.status = "approved"
    ∧ (rejectVehicle dbC6 "v1" "admin2" "dup").2 = some vRejC6
    ∧ getVehicleById (rejectVehicle dbC6 "v1" "admin2" "dup").1 "v1" = some vRejC6
    ∧ vRejC6.status = "rejected"
    ∧ vRejC6 ≠ vApprC6 := by
  decide

/-- C6, amended: `approveVehicle` and `rejectVehicle` overwrite the vehicle
with the given id unconditionally — whatever its current status — and never
raise an invalid-state-transition error. -/
theorem C6_unconditional_transition (db : DB) (now : Nat) (vid aid reason : String)
    (v : Vehicle) (h : getVehicleById db vid = some v) :
    (approveVehicle db now vid aid).2
        = some { v with status := "approved", approvedAt := some now,
                        approvedBy := some aid }
    ∧ getVehicleById (approveVehicle db now vid aid).1 vid
        = some { v with status := "approved", approvedAt := some now,
                        approvedBy := some aid }
    ∧ (rejectVehicle db vid aid reason).2
        = some { v with status := "rejected", approvedBy := some aid,
                        rejectionReason := some reason }
    ∧ getVehicleById (rejectVehicle db vid aid reason).1 vid
        = some { v with status := "rejected", approvedBy := some aid,
                        rejectionReason := some reason } := by
  rw [getVehicleById] at h
  have hv0 := List.find?_some h
  have hv : (v.id == vid) = true := hv0
  have happ := find?_map_update Vehicle.id vid
      (fun x => { x with status := "approved", approvedAt := some now,
                         approvedBy := some aid }) (fun _ => rfl) db.vehicles
  have hrej := find?_map_update Vehicle.id vid
      (fun x => { x with status := "rejected", approvedBy := some aid,
                         rejectionReason := some reason }) (fun _ => rfl) db.vehicles
  rw [h] at happ hrej
  refine ⟨?_, ?_, ?_, ?_⟩
  · have e1 : (approveVehicle db now vid aid).2
        = (db.vehicles.find? (fun x => x.id == vid)).map
            (fun x => if x.id == vid then
                { x with status := "approved", approvedAt := some now,
                         approvedBy := some aid } else x) := rfl
    rw [e1, h, Option.map_some', if_pos hv]
  · exact happ.trans (by rw [Option.map_some']; rw [if_pos hv])
  · have e1 : (rejectVehicle db vid aid reason).2
        = (db.vehicles.find? (fun x => x.id == vid)).map
            (fun x => if x.id == vid then
                { x with status := "rejected", approvedBy := some aid,
                         rejectionReason := some reason } else x) := rfl
    rw [e1, h, Option.map_some', if_pos hv]
  · exact hrej.trans (by rw [Option.map_some']; rw [if_pos hv])

/-- Witness for the amended C6 on a concrete pending vehicle. -/
theorem C6_unconditional_transition_witness :
    getVehicleById ⟨[], [], [⟨"w1", "o", "pending", none, none, none⟩], []⟩ "w1"
        = some ⟨"w1", "o", "pending", none, none, none⟩
    ∧ ((approveVehicle ⟨[], [], [⟨"w1", "o", "pending", none, none, none⟩], []⟩ 3 "w1" "adm").2
        = some ⟨"w1", "o", "approved", some "adm", some 3, none⟩
      ∧ getVehicleById
          (approveVehicle ⟨[], [], [⟨"w1", "o", "pending", none, none, none⟩], []⟩ 3 "w1" "adm").1 "w1"
        = some ⟨"w1", "o", "approved", some "adm", some 3, none⟩
      ∧ (rejectVehicle ⟨[], [], [⟨"w1", "o", "pending", none, none, none⟩], []⟩ "w1" "adm" "bad").2
        = some ⟨"w1", "o", "rejected", some "adm", none, some "bad"⟩
      ∧ getVehicleById
          (rejectVehicle ⟨[], [], [⟨"w1", "o", "pending", none, none, none⟩], []⟩ "w1" "adm" "bad").1 "w1"
        = some ⟨"w1", "o", "rejected", some "adm", none, some "bad"⟩) :=
  ⟨by decide,
    C6_unconditional_transition ⟨[], [], [⟨"w1", "o", "pending", none, none, none⟩], []⟩
      3 "w1" "adm" "bad" ⟨"w1", "o", "pending", none, none, none⟩ (by decide)⟩

/-- The completed transaction of the C7 counterexample. -/
def txC7 : Txn := ⟨"t1", "completed", some 5⟩

/-- C7 counterexample database: one completed transaction. -/
def dbC7 : DB := ⟨[], [], [], [txC7]⟩

/-- C7 counterexample: `updateTransactionStatus` on a transaction whose
status is 'completed' (not 'pending') overwrites the status with
'cancelled' instead of leaving it unchanged. -/
theorem C7_counterexample :
    getTransactionById dbC7 "t1" = some txC7
    ∧ txC7.status = "completed"
    ∧ (updateTransactionStatus dbC7 "t1" "cancelled" none).2
        = some ⟨"t1", "cancelled", some 5⟩
    ∧ getTransactionById (updateTransactionStatus dbC7 "t1" "cancelled" none).1 "t1"
        = some ⟨"t1", "cancelled", some 5⟩ := by
  decide

/-- C7, amended: `updateTransactionStatus` overwrites the status of the
transaction with the given id unconditionally, whatever its current status;
an omitted `completedAt` keeps the stored value. -/
theorem C7_unconditional_status (db : DB) (id st : String) (ca : Option Nat)
    (t : Txn) (h : getTransactionById db id = some t) :
    (updateTransactionStatus db id st ca).2
        = some { t with status := st, completedAt := caOf ca t.completedAt }
    ∧ getTransactionById (updateTransactionStatus db id st ca).1 id
        = some { t with status := st, completedAt := caOf ca t.completedAt } := by
  rw [getTransactionById] at h
  have ht0 := List.find?_some h
  have ht : (t.id == id) = true := ht0
  have hupd := find?_map_update Txn.id id
      (fun x => { x with status := st, completedAt := caOf ca x.completedAt })
      (fun _ => rfl) db.transactions
  rw [h] at hupd
  constructor
  · have e1 : (updateTransactionStatus db id st ca).2
        = (db.transactions.find? (fun x => x.id == id)).map
            (fun x => if x.id == id then
                { x with status := st, completedAt := caOf ca x.completedAt }
              else x) := rfl
    rw [e1, h, Option.map_some', if_pos ht]
  · exact hupd.trans (by rw [Option.map_some']; rw [if_pos ht])

/-- Witness for the amended C7 on a concrete pending transaction. -/
theorem C7_unconditional_status_witness :
    getTransactionById ⟨[], [], [], [⟨"t9", "pending", none⟩]⟩ "t9"
        = some ⟨"t9", "pending", none⟩
    ∧ ((updateTransactionStatus ⟨[], [], [], [⟨"t9", "pending", none⟩]⟩ "t9" "completed"
          (some 4)).2 = some ⟨"t9", "completed", some 4⟩
      ∧ getTransactionById
          (updateTransactionStatus ⟨[], [], [], [⟨"t9", "pending", none⟩]⟩ "t9" "completed"
            (some 4)).1 "t9" = some ⟨"t9", "completed", some 4⟩) :=
  ⟨by decide,
    C7_unconditional_status ⟨[], [], [], [⟨"t9", "pending", none⟩]⟩ "t9" "completed"
      (some 4) ⟨"t9", "pending", none⟩ (by decide)⟩

/-- C10: for an id matching no stored vehicle, `approveVehicle` and
`rejectVehicle` throw no error and return `undefined`, and the PATCH
approve/reject routes answer 200 with an empty body instead of 404. -/
theorem C10_missing_vehicle (db : DB) (now : Nat) (vid aid reason : String)
    (h : getVehicleById db vid = none) :
    approveVehicle db now vid aid = (db, none)
    ∧ rejectVehicle db vid aid reason = (db, none)
    ∧ approveRoute db now (some aid) vid = (db, ⟨200, none⟩)
    ∧ rejectRoute db (some aid) vid reason = (db, ⟨200, none⟩) := by
  rw [getVehicleById] at h
  have hall := List.find?_eq_none.mp h
  have hmapA : db.vehicles.map (fun x => if x.id == vid then
      { x with status := "approved", approvedAt := some now, approvedBy := some aid }
      else x) = db.vehicles := by
    calc db.vehicles.map (fun x => if x.id == vid then
            { x with status := "approved", approvedAt := some now,
                     approvedBy := some aid } else x)
        = db.vehicles.map id :=
          List.map_congr_left (fun x hx => by rw [if_neg (hall x hx)]; rfl)
      _ = db.vehicles := List.map_id _
  have hmapR : db.vehicles.map (fun x => if x.id == vid then
      { x with status := "rejected", approvedBy := some aid,
               rejectionReason := some reason } else x) = db.vehicles := by
    calc db.vehicles.map (fun x => if x.id == vid then
            { x with status := "rejected", approvedBy := some aid,
                     rejectionReason := some reason } else x)
        = db.vehicles.map id :=
          List.map_congr_left (fun x hx => by rw [if_neg (hall x hx)]; rfl)
      _ = db.vehicles := List.map_id _
  have hA : approveVehicle db now vid aid = (db, none) := by
    show ({ db with vehicles := db.vehicles.map (fun x => if x.id == vid then
        { x with status := "approved", approvedAt := some now,
                 approvedBy := some aid } else x) },
      (db.vehicles.find? (fun x => x.id == vid)).map (fun x => if x.id == vid then
        { x with status := "approved", approvedAt := some now,
                 approvedBy := some aid } else x)) = (db, none)
    rw [hmapA, h]
    rfl
  have hR : rejectVehicle db vid aid reason = (db, none) := by
    show ({ db with vehicles := db.vehicles.map (fun x => if x.id == vid then
        { x with status := "rejected", approvedBy := some aid,
                 rejectionReason := some reason } else x) },
      (db.vehicles.find? (fun x => x.id == vid)).map (fun x => if x.id == vid then
        { x with status := "rejected", approvedBy := some aid,
                 rejectionReason := some reason } else x)) = (db, none)
    rw [hmapR, h]
    rfl
  refine ⟨hA, hR, ?_, ?_⟩
  · show ((approveVehicle db now vid aid).1,
        HttpResponse.mk 200 ((approveVehicle db now vid aid).2.map vehicleToJson))
      = (db, ⟨200, none⟩)
    rw [hA]
    rfl
  · show ((rejectVehicle db vid aid reason).1,
        HttpResponse.mk 200 ((rejectVehicle db vid aid reason).2.map vehicleToJson))
      = (db, ⟨200, none⟩)
    rw [hR]
    rfl

/-- Witness for C10 on the empty database. -/
theorem C10_missing_vehicle_witness :
    getVehicleById emptyDB "nope" = none
    ∧ (approveVehicle emptyDB 2 "nope" "adm" = (emptyDB, none)
      ∧ rejectVehicle emptyDB "nope" "adm" "r" = (emptyDB, none)
      ∧ approveRoute emptyDB 2 (some "adm") "nope" = (emptyDB, ⟨200, none⟩)
      ∧ rejectRoute emptyDB (some "adm") "nope" "r" = (emptyDB, ⟨200, none⟩)) :=
  ⟨by decide, C10_missing_vehicle emptyDB 2 "nope" "adm" "r" (by decide)⟩

/-- C2 counterexample: a `GET /api/fuel-balances` request is dispatched to
the first registered handler, which answers with a two-element JSON *array*
of `{fuelType, balance}` objects — not with an object of shape
`{petrol, diesel}`. -/
theorem C2_counterexample :
    (dispatchFuelBalances emptyDB (some "u")).2.status = 200
    ∧ (dispatchFuelBalances emptyDB (some "u")).2.body
        = some (Json.arr
            [Json.obj [("fuelType", Json.str "petrol"), ("balance", Json.str "0")],
             Json.obj [("fuelType", Json.str "diesel"), ("balance", Json.str "0")]])
    ∧ isObjJson ((dispatchFuelBalances emptyDB (some "u")).2.body.getD Json.null)
        = false :=
  ⟨rfl, rfl, rfl⟩

/-- C2, amended: for every authenticated request the endpoint responds 200
with the JSON array `[{fuelType: 'petrol', balance}, {fuelType: 'diesel',
balance}]` produced by the first registration (which also initializes the
balance rows); the body is never an object.  The second, shadowed
registration would have produced the `{petrol, diesel}` object shape. -/
theorem C2_fuel_balances_array (db : DB) (uid : String) :
    (dispatchFuelBalances db (some uid)).2.status = 200
    ∧ (dispatchFuelBalances db (some uid)).2.body
        = some (Json.arr
            [Json.obj [("fuelType", Json.str "petrol"),
                ("balance", Json.str
                  (balStr (getFuelBalance (initFuelBalances db uid) uid "petrol")))],
             Json.obj [("fuelType", Json.str "diesel"),
                ("balance", Json.str
                  (balStr (getFuelBalance (initFuelBalances db uid) uid "diesel")))]])
    ∧ isObjJson ((dispatchFuelBalances db (some uid)).2.body.getD Json.null) = false
    ∧ (fuelBalancesHandlerB db (some uid)).2.body
        = some (Json.obj
            [("petrol", Json.str (balStr (getFuelBalance db uid "petrol"))),
             ("diesel", Json.str (balStr (getFuelBalance db uid "diesel")))]) :=
  ⟨rfl, rfl, rfl, rfl⟩

/-- The active coupon of the C8 counterexample. -/
def cpnC8 : Coupon := ⟨"FUEL-DSL-3L-ZZZZZZ", "diesel", "3", "active", none, none, none⟩

/-- C8 counterexample database: one active coupon, no balances. -/
def dbC8 : DB := ⟨[], [cpnC8], [], []⟩

/-- C8 counterexample: when the balance-credit call fails after the
conditional update succeeded, the request ends 400 with the coupon already
marked used while no balance was credited — the two effects are not applied
together. -/
theorem C8_counterexample :
    (redeemHandlerF dbC8 7 (some "u9") "FUEL-DSL-3L-ZZZZZZ"
        (some "connection reset")).2.status = 400
    ∧ (getCouponByCode
          (redeemHandlerF dbC8 7 (some "u9") "FUEL-DSL-3L-ZZZZZZ"
            (some "connection reset")).1 "FUEL-DSL-3L-ZZZZZZ").map Coupon.status
        = some "used"
    ∧ (getCouponByCode
          (redeemHandlerF dbC8 7 (some "u9") "FUEL-DSL-3L-ZZZZZZ"
            (some "connection reset")).1 "FUEL-DSL-3L-ZZZZZZ").map Coupon.usedBy
        = some (some "u9")
    ∧ (redeemHandlerF dbC8 7 (some "u9") "FUEL-DSL-3L-ZZZZZZ"
        (some "connection reset")).1.fuelBalances = [] := by
  decide

/-- C8, amended: when both storage calls succeed the coupon transition and
the balance credit are both applied; but when the credit call fails after
the conditional update, the handler answers 400 leaving the coupon marked
used with no credit applied (no rollback). -/
theorem C8_redeem_effects (db : DB) (now : Nat) (uid code : String) (db1 : DB)
    (c : Coupon) (q : Rat)
    (h : redeemCoupon db now code uid = Except.ok (db1, c))
    (hq : parseDec c.amount = some q) :
    ((redeemHandlerF db now (some uid) code none).2.status = 200
      ∧ balanceVal (redeemHandlerF db now (some uid) code none).1 uid c.fuelType
          = balanceVal db uid c.fuelType + q
      ∧ (redeemHandlerF db now (some uid) code none).1.coupons.find?
            (fun x => x.code == code && x.status == "active") = none)
    ∧ ∀ msg : String,
        (redeemHandlerF db now (some uid) code (some msg)).2
            = ⟨400, some (errJson msg)⟩
        ∧ (redeemHandlerF db now (some uid) code (some msg)).1.fuelBalances
            = db.fuelBalances
        ∧ (redeemHandlerF db now (some uid) code (some msg)).1.coupons.find?
            (fun x => x.code == code && x.status == "active") = none := by
  have e0 : redeemHandlerF db now (some uid) code none
      = redeemRoute db now (some uid) code := rfl
  have hr := redeemRoute_ok db now code uid db1 c h
  obtain ⟨hbal, -⟩ := redeemCoupon_ok_inv db now code uid db1 c h
  have hnoact := redeemCoupon_ok_no_active db now code uid db1 c h
  have hfault : ∀ msg : String, redeemHandlerF db now (some uid) code (some msg)
      = (db1, ⟨400, some (errJson msg)⟩) := by
    intro msg
    simp [redeemHandlerF, h]
  refine ⟨⟨?_, ?_, ?_⟩, ?_⟩
  · rw [e0, hr]
  · rw [e0, hr]
    rw [parseFloatJS_of_parseDec c.amount q hq, balanceVal_update']
    rw [balanceVal_congr db db1 uid c.fuelType hbal]
  · rw [e0, hr]
    rw [updateFuelBalance_coupons]
    exact hnoact
  · intro msg
    refine ⟨?_, ?_, ?_⟩
    · rw [hfault msg]
    · rw [hfault msg]
      exact hbal
    · rw [hfault msg]
      exact hnoact

/-- The redeemed form of the C8 witness coupon. -/
def cpnC8w : Coupon :=
  ⟨"FUEL-DSL-4L-YYYYYY", "diesel", "4", "used", some "u3", some 9, none⟩

/-- The C8 witness database before redemption. -/
def dbC8w : DB :=
  ⟨[], [⟨"FUEL-DSL-4L-YYYYYY", "diesel", "4", "active", none, none, none⟩], [], []⟩

/-- The C8 witness database right after the conditional update. -/
def dbC8w1 : DB := ⟨[], [cpnC8w], [], []⟩

/-- Witness for the amended C8 at a concrete redemption. -/
theorem C8_redeem_effects_witness :
    (redeemCoupon dbC8w 9 "FUEL-DSL-4L-YYYYYY" "u3" = Except.ok (dbC8w1, cpnC8w)
      ∧ parseDec cpnC8w.amount = some 4)
    ∧ (((redeemHandlerF dbC8w 9 (some "u3") "FUEL-DSL-4L-YYYYYY" none).2.status = 200
      ∧ balanceVal (redeemHandlerF dbC8w 9 (some "u3") "FUEL-DSL-4L-YYYYYY" none).1 "u3"
            cpnC8w.fuelType
          = balanceVal dbC8w "u3" cpnC8w.fuelType + 4
      ∧ (redeemHandlerF dbC8w 9 (some "u3") "FUEL-DSL-4L-YYYYYY" none).1.coupons.find?
            (fun x => x.code == "FUEL-DSL-4L-YYYYYY" && x.status == "active") = none)
    ∧ ∀ msg : String,
        (redeemHandlerF dbC8w 9 (some "u3") "FUEL-DSL-4L-YYYYYY" (some msg)).2
            = ⟨400, some (errJson msg)⟩
        ∧ (redeemHandlerF dbC8w 9 (some "u3") "FUEL-DSL-4L-YYYYYY" (some msg)).1.fuelBalances
            = dbC8w.fuelBalances
        ∧ (redeemHandlerF dbC8w 9 (some "u3") "FUEL-DSL-4L-YYYYYY" (some msg)).1.coupons.find?
            (fun x => x.code == "FUEL-DSL-4L-YYYYYY" && x.status == "active") = none) :=
  ⟨⟨by rfl, by decide⟩,
    C8_redeem_effects dbC8w 9 "u3" "FUEL-DSL-4L-YYYYYY" dbC8w1 cpnC8w 4
      (by rfl) (by decide)⟩

end Counc
